import Mathlib

/-!
Shallow embedding of the orchestration layer of the route-optimization
system: the two HTTP adapter modules (`src/services/api.js` and
`frontend/src/services/api.js`) and the workflow state controller
(`frontend/src/App.jsx`).

Network effects are made explicit: every adapter takes the remote server
behaviour as a function argument and returns, next to its result, the list
of wire calls it performed.  A thrown JavaScript value is an `Except.error`;
`null`/`undefined` fields are `Option.none`.  Coordinates are carried
opaquely (the layer never computes with them), as `Int`.
-/

/-- A location record as it circulates inside the layer: an entry of an
extraction result, a map-selected waypoint, or an input to the optimization
adapter.  The field `visit_sequence` may be absent or `null` (`none`). -/
structure ParsedLocation where
  name : String
  lat : Int
  lon : Int
  visit_sequence : Option Nat
deriving DecidableEq, Repr

/-- An entry of the request body transmitted by the root optimization
adapter: `visit_sequence` is always concrete there. -/
structure OutLocation where
  name : String
  lat : Int
  lon : Int
  visit_sequence : Nat
deriving DecidableEq, Repr

/-- The body of a `POST /optimize-route` request built by the root adapter. -/
structure OptimizePayload where
  parsed_locations : List OutLocation
deriving DecidableEq, Repr

/-- The shape of an extraction response this layer consumes:
`{ parsed_locations: [...] }`, where the field may be absent (`none`). -/
structure ExtractResult where
  parsed_locations : Option (List ParsedLocation)
deriving DecidableEq, Repr

/-- The slice of an error HTTP response this layer consumes: the status and
the body field `detail` when it is a string. -/
structure AxiosResponse where
  status : Nat
  detail : Option String
deriving DecidableEq, Repr

/-- How a remote call fails, as exposed by the transport client: either an
error-status response was received, or no response at all.  Both carry the
client-generated `message` string of the rejection value. -/
inductive AxiosFailure where
  | response (resp : AxiosResponse) (message : String)
  | network (message : String)
deriving DecidableEq, Repr

/-- The client-generated message of a failure value. -/
def AxiosFailure.message : AxiosFailure → String
  | .response _ m => m
  | .network m => m

/-- Outcome of one remote call: the parsed response data, or a failure. -/
inductive ApiOutcome (α : Type) where
  | ok (data : α)
  | fail (e : AxiosFailure)
deriving DecidableEq, Repr

/-- A JavaScript value thrown by this layer: either a re-raised transport
failure, or an `Error` constructed locally with a message. -/
inductive JsError where
  | axios (e : AxiosFailure)
  | err (message : String)
deriving DecidableEq, Repr

/-- The `message` property of a thrown value, as read by the controller. -/
def JsError.message : JsError → String
  | .axios e => e.message
  | .err m => m

/-- JavaScript `s.trim()`: strips leading and trailing whitespace.  Defined
directly over the character list so that it evaluates by kernel
reduction. -/
def jsTrim (s : String) : String :=
  ⟨((s.data.dropWhile Char.isWhitespace).reverse.dropWhile Char.isWhitespace).reverse⟩

/-- JavaScript `a || b` on a possibly-absent string `a`: the fallback is
taken when `a` is absent, `null` or the (falsy) empty string. -/
def jsOrElse (a : Option String) (fallback : String) : String :=
  match a with
  | some s => if s = "" then fallback else s
  | none => fallback

namespace Services
/-!
Embedding of `src/services/api.js` (the root adapter module).  The type
variable `ρ` keeps the optimization result opaque, as the layer treats it.
-/

/-- One wire call emitted by the root adapter module. -/
inductive ApiCall where
  | postExtract (request_text : String)
  | postOptimize (payload : OptimizePayload)
  | getHealth
deriving DecidableEq, Repr

/-- Remote behaviour the root adapters run against. -/
structure Server (ρ : Type) where
  extract : String → ApiOutcome ExtractResult
  optimize : OptimizePayload → ApiOutcome ρ

/-- From `extractSequence` in `src/services/api.js`: posts the text and
returns the response data; a transport failure propagates unwrapped. -/
def extractSequence (srv : Server ρ) (requestText : String) :
    Except JsError ExtractResult × List ApiCall :=
  match srv.extract requestText with
  | .ok d => (.ok d, [.postExtract requestText])
  | .fail e => (.error (.axios e), [.postExtract requestText])

/-- The request body `optimizeRoute` builds before transmission: each entry
keeps an explicit `visit_sequence` (`loc.visit_sequence ?? index + 1`). -/
def optimizePayload (parsedLocations : List ParsedLocation) : OptimizePayload :=
  ⟨parsedLocations.mapIdx fun index loc =>
    ⟨loc.name, loc.lat, loc.lon, loc.visit_sequence.getD (index + 1)⟩⟩

/-- From `optimizeRoute` in `src/services/api.js`: builds the normalized
payload, posts it, returns the response data; a transport failure
propagates unwrapped. -/
def optimizeRoute (srv : Server ρ) (parsedLocations : List ParsedLocation) :
    Except JsError ρ × List ApiCall :=
  let payload := optimizePayload parsedLocations
  match srv.optimize payload with
  | .ok d => (.ok d, [.postOptimize payload])
  | .fail e => (.error (.axios e), [.postOptimize payload])

/-- Result of the full text pipeline. -/
structure ProcessResult (ρ : Type) where
  extracted : ExtractResult
  optimized : ρ
deriving DecidableEq, Repr

/-- From `processLogisticsRequest` in `src/services/api.js`: extraction,
then the fewer-than-two gate (`!extracted.parsed_locations ||
extracted.parsed_locations.length < 2`), then optimization. -/
def processLogisticsRequest (srv : Server ρ) (requestText : String) :
    Except JsError (ProcessResult ρ) × List ApiCall :=
  match extractSequence srv requestText with
  | (.error e, calls) => (.error e, calls)
  | (.ok extracted, calls) =>
    match extracted.parsed_locations with
    | none => (.error (.err "At least two locations are required."), calls)
    | some locs =>
      if locs.length < 2 then
        (.error (.err "At least two locations are required."), calls)
      else
        match optimizeRoute srv locs with
        | (.error e, calls2) => (.error e, calls ++ calls2)
        | (.ok optimized, calls2) => (.ok ⟨extracted, optimized⟩, calls ++ calls2)

/-- The `enrichedLocations` built by `optimizeFromMap`: every entry is
re-sequenced to `index + 1`, discarding any pre-existing
`visit_sequence`. -/
def enrichLocations (locs : List ParsedLocation) : List ParsedLocation :=
  locs.mapIdx fun index loc => ⟨loc.name, loc.lat, loc.lon, some (index + 1)⟩

/-- From `optimizeFromMap` in `src/services/api.js`: the argument may be
`null`/`undefined` (`none`); the guard `!locations || locations.length < 2`
throws before any call; otherwise every entry is re-sequenced to
`index + 1` and the shared `optimizeRoute` adapter is invoked. -/
def optimizeFromMap (srv : Server ρ) (locations : Option (List ParsedLocation)) :
    Except JsError ρ × List ApiCall :=
  match locations with
  | none => (.error (.err "Select at least two locations."), [])
  | some locs =>
    if locs.length < 2 then
      (.error (.err "Select at least two locations."), [])
    else
      optimizeRoute srv (enrichLocations locs)

/-- The shape of a health response this layer consumes: `{ status: string }`. -/
structure Health where
  status : String
deriving DecidableEq, Repr

/-- From `healthCheck` in `src/services/api.js`: returns the response data,
and maps every failure to `{ status: "offline" }`; nothing escapes. -/
def healthCheck (outcome : ApiOutcome Health) : Except JsError Health × List ApiCall :=
  match outcome with
  | .ok d => (.ok d, [.getHealth])
  | .fail _ => (.ok ⟨"offline"⟩, [.getHealth])

end Services

namespace Frontend
/-!
Embedding of `frontend/src/services/api.js`.  Unlike the root module, its
`extractSequence` and `optimizeRoute` catch transport failures and re-throw
an `Error` whose message is `error.response?.data?.detail || <fallback>`,
and its `optimizeRoute` transmits the input list verbatim, without
sequence normalization.
-/

/-- One wire call emitted by the frontend adapter module; its optimization
request body is the input list verbatim. -/
inductive ApiCall where
  | postExtract (request_text : String)
  | postOptimize (parsed_locations : List ParsedLocation)
  | getHealth
deriving DecidableEq, Repr

/-- Remote behaviour the frontend adapters run against. -/
structure Server (ρ : Type) where
  extract : String → ApiOutcome ExtractResult
  optimize : List ParsedLocation → ApiOutcome ρ

/-- The `detail` field of the failure's response body, when a response was
received at all (`error.response?.data?.detail`). -/
def failureDetail : AxiosFailure → Option String
  | .response resp _ => resp.detail
  | .network _ => none

/-- From `extractSequence` in `frontend/src/services/api.js`: on failure it
throws `new Error(error.response?.data?.detail || "Failed to extract
locations from your request. Please try again.")`. -/
def extractSequence (srv : Server ρ) (requestText : String) :
    Except JsError ExtractResult × List ApiCall :=
  match srv.extract requestText with
  | .ok d => (.ok d, [.postExtract requestText])
  | .fail e =>
    (.error (.err (jsOrElse (failureDetail e)
      "Failed to extract locations from your request. Please try again.")),
     [.postExtract requestText])

/-- From `optimizeRoute` in `frontend/src/services/api.js`: posts the input
list verbatim; on failure it throws `new Error(error.response?.data?.detail
|| "Failed to optimize route. Please check your input and try again.")`. -/
def optimizeRoute (srv : Server ρ) (parsedLocations : List ParsedLocation) :
    Except JsError ρ × List ApiCall :=
  match srv.optimize parsedLocations with
  | .ok d => (.ok d, [.postOptimize parsedLocations])
  | .fail e =>
    (.error (.err (jsOrElse (failureDetail e)
      "Failed to optimize route. Please check your input and try again.")),
     [.postOptimize parsedLocations])

/-- Result of the frontend text pipeline. -/
structure ProcessResult (ρ : Type) where
  extracted : ExtractResult
  optimized : ρ
deriving DecidableEq, Repr

/-- From `processLogisticsRequest` in `frontend/src/services/api.js`:
extraction, then the gate `!extractedData.parsed_locations ||
extractedData.parsed_locations.length === 0` (zero only, with the message
"No locations found in your request. Please provide city names."), then
optimization; the surrounding try/catch re-throws unchanged. -/
def processLogisticsRequest (srv : Server ρ) (requestText : String) :
    Except JsError (ProcessResult ρ) × List ApiCall :=
  match extractSequence srv requestText with
  | (.error e, calls) => (.error e, calls)
  | (.ok extractedData, calls) =>
    match extractedData.parsed_locations with
    | none =>
      (.error (.err "No locations found in your request. Please provide city names."),
       calls)
    | some locs =>
      if locs.length = 0 then
        (.error (.err "No locations found in your request. Please provide city names."),
         calls)
      else
        match optimizeRoute srv locs with
        | (.error e, calls2) => (.error e, calls ++ calls2)
        | (.ok optimized, calls2) => (.ok ⟨extractedData, optimized⟩, calls ++ calls2)

/-- The shape of a frontend health result: on failure the catch clause adds
an `error` field next to `status`. -/
structure Health where
  status : String
  error : Option String
deriving DecidableEq, Repr

/-- From `healthCheck` in `frontend/src/services/api.js`: returns the
response data, and maps every failure to
`{ status: "offline", error: error.message }`; nothing escapes. -/
def healthCheck (outcome : ApiOutcome Health) : Except JsError Health × List ApiCall :=
  match outcome with
  | .ok d => (.ok d, [.getHealth])
  | .fail e => (.ok ⟨"offline", some e.message⟩, [.getHealth])

end Frontend

namespace App
/-!
Embedding of the workflow state controller in `frontend/src/App.jsx` (the
revision with the map flow).  The orchestrator invocation is a parameter:
each handler receives the outcome its awaited call settles with, an
`Except String` carrying `err.message` on rejection.  Next to the new state,
each handler reports whether it reached its orchestrator invocation, so
that making no call is an explicit fact of the model.
-/

/-- The `stage` field values. -/
inductive Stage where
  | input
  | processing
  | results
deriving DecidableEq, Repr

/-- The controller state: the `useState` cells of `App`. -/
structure AppState (ρ : Type) where
  query : String
  loading : Bool
  error : Option String
  extractedLocations : Option (List ParsedLocation)
  optimizationResult : Option ρ
  stage : Stage
  showMap : Bool
deriving DecidableEq, Repr

/-- What `processLogisticsRequest` resolves with, as the controller reads
it: the extracted `parsed_locations` and the optimization result. -/
structure SubmitData (ρ : Type) where
  parsed_locations : Option (List ParsedLocation)
  optimized : ρ
deriving DecidableEq, Repr

/-- From `handleSubmit` in `frontend/src/App.jsx`: the blank-query guard,
the transition into `processing`, then commit of the awaited outcome; the
`finally` clause clears `loading` on both paths.  The second component
records whether `processLogisticsRequest` was invoked. -/
def handleSubmit (s : AppState ρ) (outcome : Except String (SubmitData ρ)) :
    AppState ρ × Bool :=
  if jsTrim s.query = "" then
    ({ s with error := some "Please enter a logistics request" }, false)
  else
    let s1 := { s with loading := true, error := none, stage := .processing,
                       extractedLocations := none, optimizationResult := none }
    match outcome with
    | .ok result =>
      ({ s1 with extractedLocations := result.parsed_locations,
                 optimizationResult := some result.optimized,
                 stage := .results, loading := false }, true)
    | .error msg =>
      ({ s1 with error := some (if msg = "" then "Something went wrong" else msg),
                 stage := .input, loading := false }, true)

/-- From `handleMapOptimization` in `frontend/src/App.jsx`: closes the map,
enters `processing`, awaits the optimize call on the selected locations and
commits its outcome; the `finally` clause clears `loading` on both paths. -/
def handleMapOptimization (s : AppState ρ) (locations : List ParsedLocation)
    (outcome : Except String ρ) : AppState ρ :=
  let s1 := { s with showMap := false, loading := true, error := none,
                     stage := .processing, extractedLocations := none,
                     optimizationResult := none }
  match outcome with
  | .ok optimized =>
    { s1 with extractedLocations := some locations,
              optimizationResult := some optimized,
              stage := .results, loading := false }
  | .error msg =>
    { s1 with error := some (if msg = "" then "Route optimization failed" else msg),
              stage := .input, loading := false }

/-- From `handleReset` in `frontend/src/App.jsx`: clears the query, both
result cells and the error, and returns to `input`. -/
def handleReset (s : AppState ρ) : AppState ρ :=
  { s with query := "", extractedLocations := none, optimizationResult := none,
           error := none, stage := .input }

end App

namespace Samples
/-! Concrete fixtures used by witness theorems. -/

/-- A root-module server that always answers successfully with a fixed
extraction result and a unit optimization result. -/
def okServer (e : ExtractResult) : Services.Server Unit :=
  ⟨fun _ => .ok e, fun _ => .ok ()⟩

/-- A frontend server whose calls all fail with the given failure. -/
def failServer (e : AxiosFailure) : Frontend.Server Unit :=
  ⟨fun _ => .fail e, fun _ => .fail e⟩

/-- A frontend server that always answers successfully with a fixed
extraction result and a unit optimization result. -/
def okServerF (e : ExtractResult) : Frontend.Server Unit :=
  ⟨fun _ => .ok e, fun _ => .ok ()⟩

/-- A root-module server whose calls all fail with the given failure. -/
def failServerR (e : AxiosFailure) : Services.Server Unit :=
  ⟨fun _ => .fail e, fun _ => .fail e⟩

/-- The transport failure of Scenario D: a status-500 response whose body
carries the detail "optimizer unavailable". -/
def fail500 : AxiosFailure :=
  .response ⟨500, some "optimizer unavailable"⟩ "Request failed with status code 500"

/-- Waypoint fixture without an explicit sequence. -/
def locA : ParsedLocation := ⟨"A", 1, 1, none⟩

/-- Waypoint fixture carrying the explicit sequence 7. -/
def locB : ParsedLocation := ⟨"B", 2, 2, some 7⟩

/-- Controller state fixture with the non-blank query "go", caught
mid-operation. -/
def stateGo : App.AppState Unit := ⟨"go", true, none, none, none, .processing, true⟩

/-- Controller state fixture with a whitespace-only query, at rest. -/
def stateBlank : App.AppState Unit := ⟨"   ", false, none, none, none, .input, false⟩

end Samples

/-- Length of the normalized optimization request equals the input length. -/
theorem Services.optimizePayload_length (locs : List ParsedLocation) :
    (Services.optimizePayload locs).parsed_locations.length = locs.length := by
  simp [Services.optimizePayload]

/-- Entry `i` of the normalized optimization request, in terms of entry `i`
of the input. -/
theorem Services.optimizePayload_get (locs : List ParsedLocation) (i : Nat)
    (hi : i < locs.length)
    (hp : i < (Services.optimizePayload locs).parsed_locations.length) :
    (Services.optimizePayload locs).parsed_locations.get ⟨i, hp⟩ =
      ⟨(locs.get ⟨i, hi⟩).name, (locs.get ⟨i, hi⟩).lat, (locs.get ⟨i, hi⟩).lon,
        ((locs.get ⟨i, hi⟩).visit_sequence).getD (i + 1)⟩ := by
  simp [Services.optimizePayload, List.get_mapIdx]

/-- C1 counterexample: the frontend `optimizeRoute` transmits the input
list verbatim, so an entry without a `visit_sequence` is transmitted with
the field still absent — not normalized to positional index plus one. -/
theorem c1_counterexample :
    (Frontend.optimizeRoute (Samples.failServer (.network "timeout"))
        [Samples.locA]).2
      = [Frontend.ApiCall.postOptimize [Samples.locA]] ∧
    Samples.locA.visit_sequence = none ∧
    (none : Option Nat) ≠ some (0 + 1) :=
  ⟨rfl, rfl, by decide⟩

/-- C1 amended: the root `optimizeRoute` transmits a single request
preserving input order whose entry `i` carries the explicit
`visit_sequence` when present and non-null and `i + 1` otherwise, while
the frontend `optimizeRoute` transmits the input list verbatim, preserving
order but performing no sequence normalization. -/
theorem c1_optimizeRoute_normalizes_sequence {ρ : Type}
    (srv : Services.Server ρ) (srvF : Frontend.Server ρ)
    (locs : List ParsedLocation) :
    (Services.optimizeRoute srv locs).2
      = [Services.ApiCall.postOptimize (Services.optimizePayload locs)] ∧
    (Services.optimizePayload locs).parsed_locations.length = locs.length ∧
    (∀ i (hi : i < locs.length)
      (hp : i < (Services.optimizePayload locs).parsed_locations.length),
      (Services.optimizePayload locs).parsed_locations.get ⟨i, hp⟩ =
        ⟨(locs.get ⟨i, hi⟩).name, (locs.get ⟨i, hi⟩).lat, (locs.get ⟨i, hi⟩).lon,
          ((locs.get ⟨i, hi⟩).visit_sequence).getD (i + 1)⟩) ∧
    (Frontend.optimizeRoute srvF locs).2
      = [Frontend.ApiCall.postOptimize locs] := by
  refine ⟨?_, Services.optimizePayload_length locs,
    fun i hi hp => Services.optimizePayload_get locs i hi hp, ?_⟩
  · cases h : srv.optimize (Services.optimizePayload locs) <;>
      simp [Services.optimizeRoute, h]
  · cases h : srvF.optimize locs <;> simp [Frontend.optimizeRoute, h]

/-- C1 witness: a concrete two-entry input, one entry without a sequence
and one carrying the explicit sequence 7; the frontend adapter transmits
the same input unchanged. -/
theorem c1_witness :
    (Services.optimizeRoute (Samples.okServer ⟨none⟩) [Samples.locA, Samples.locB]).2
      = [Services.ApiCall.postOptimize
          (Services.optimizePayload [Samples.locA, Samples.locB])] ∧
    (Services.optimizePayload [Samples.locA, Samples.locB]).parsed_locations.get
        ⟨0, by decide⟩ = ⟨"A", 1, 1, 1⟩ ∧
    (Services.optimizePayload [Samples.locA, Samples.locB]).parsed_locations.get
        ⟨1, by decide⟩ = ⟨"B", 2, 2, 7⟩ ∧
    (Frontend.optimizeRoute (Samples.okServerF ⟨none⟩)
        [Samples.locA, Samples.locB]).2
      = [Frontend.ApiCall.postOptimize [Samples.locA, Samples.locB]] := by
  have h := c1_optimizeRoute_normalizes_sequence
    (Samples.okServer ⟨none⟩) (Samples.okServerF ⟨none⟩) [Samples.locA, Samples.locB]
  exact ⟨h.1, (h.2.2.1 0 (by decide) (by decide)).trans (by decide),
    (h.2.2.1 1 (by decide) (by decide)).trans (by decide), h.2.2.2⟩

/-- C2 counterexample: the frontend `processLogisticsRequest` with a
single extracted location does not raise "At least two locations are
required." — it invokes the optimizer and resolves. -/
theorem c2_counterexample :
    Frontend.processLogisticsRequest (Samples.okServerF ⟨some [Samples.locA]⟩) "Delhi"
      = (.ok ⟨⟨some [Samples.locA]⟩, ()⟩,
         [Frontend.ApiCall.postExtract "Delhi",
          Frontend.ApiCall.postOptimize [Samples.locA]]) ∧
    (Frontend.processLogisticsRequest
        (Samples.okServerF ⟨some [Samples.locA]⟩) "Delhi").1
      ≠ .error (.err "At least two locations are required.") :=
  ⟨rfl, fun h => Except.noConfusion h⟩

/-- C2 amended: when extraction succeeds with fewer than two locations the
root `processLogisticsRequest` throws "At least two locations are
required." with the extraction call as its only wire call, whereas the
frontend version gates only on zero locations — with the message "No
locations found in your request. Please provide city names." — and for
exactly one extracted location it does invoke the optimizer. -/
theorem c2_processLogisticsRequest_validation_gate {ρ : Type}
    (srv : Services.Server ρ) (srvF : Frontend.Server ρ) (requestText : String)
    (extracted : ExtractResult) (locs : List ParsedLocation)
    (l : ParsedLocation) :
    (srv.extract requestText = .ok extracted →
      extracted.parsed_locations = some locs → locs.length < 2 →
      Services.processLogisticsRequest srv requestText
        = (.error (.err "At least two locations are required."),
           [Services.ApiCall.postExtract requestText])) ∧
    (srvF.extract requestText = .ok extracted →
      extracted.parsed_locations = some locs → locs.length = 0 →
      Frontend.processLogisticsRequest srvF requestText
        = (.error (.err "No locations found in your request. Please provide city names."),
           [Frontend.ApiCall.postExtract requestText])) ∧
    (srvF.extract requestText = .ok extracted →
      extracted.parsed_locations = some [l] →
      (Frontend.processLogisticsRequest srvF requestText).2
        = [Frontend.ApiCall.postExtract requestText,
           Frontend.ApiCall.postOptimize [l]]) := by
  refine ⟨?_, ?_, ?_⟩
  · intro hok hlocs hlen
    have he : Services.extractSequence srv requestText
        = (.ok extracted, [.postExtract requestText]) := by
      simp [Services.extractSequence, hok]
    simp [Services.processLogisticsRequest, he, hlocs, hlen]
  · intro hok hlocs hlen
    have he : Frontend.extractSequence srvF requestText
        = (.ok extracted, [.postExtract requestText]) := by
      simp [Frontend.extractSequence, hok]
    simp [Frontend.processLogisticsRequest, he, hlocs, hlen]
  · intro hok hlocs
    have he : Frontend.extractSequence srvF requestText
        = (.ok extracted, [.postExtract requestText]) := by
      simp [Frontend.extractSequence, hok]
    cases h : srvF.optimize [l] <;>
      simp [Frontend.processLogisticsRequest, he, hlocs,
        Frontend.optimizeRoute, h]

/-- C2 witness: extraction returning a single location on the query
"Delhi" makes the root pipeline fail fast with only the extraction call,
and extraction returning zero locations trips the frontend gate. -/
theorem c2_witness :
    Services.processLogisticsRequest (Samples.okServer ⟨some [Samples.locA]⟩) "Delhi"
      = (.error (.err "At least two locations are required."),
         [Services.ApiCall.postExtract "Delhi"]) ∧
    Frontend.processLogisticsRequest (Samples.okServerF ⟨some []⟩) "Delhi"
      = (.error (.err "No locations found in your request. Please provide city names."),
         [Frontend.ApiCall.postExtract "Delhi"]) :=
  ⟨(c2_processLogisticsRequest_validation_gate (Samples.okServer ⟨some [Samples.locA]⟩)
      (Samples.okServerF ⟨some [Samples.locA]⟩) "Delhi" ⟨some [Samples.locA]⟩
      [Samples.locA] Samples.locA).1 rfl rfl (by decide),
   (c2_processLogisticsRequest_validation_gate (Samples.okServer ⟨some []⟩)
      (Samples.okServerF ⟨some []⟩) "Delhi" ⟨some []⟩ [] Samples.locA).2.1
      rfl rfl rfl⟩

/-- C3: for every list of at least two locations, `optimizeFromMap`
delegates to the shared `optimizeRoute` adapter on the re-sequenced list,
and the transmitted request assigns `visit_sequence = index + 1` to every
entry in input order, regardless of any pre-existing `visit_sequence`. -/
theorem c3_optimizeFromMap_overwrites_sequence {ρ : Type}
    (srv : Services.Server ρ) (locs : List ParsedLocation)
    (h2 : 2 ≤ locs.length) :
    Services.optimizeFromMap srv (some locs)
      = Services.optimizeRoute srv (Services.enrichLocations locs) ∧
    (Services.optimizeFromMap srv (some locs)).2
      = [Services.ApiCall.postOptimize
          (Services.optimizePayload (Services.enrichLocations locs))] ∧
    (Services.optimizePayload (Services.enrichLocations locs)).parsed_locations.length
      = locs.length ∧
    ∀ i (hi : i < locs.length)
      (hp : i < (Services.optimizePayload
        (Services.enrichLocations locs)).parsed_locations.length),
      (Services.optimizePayload
        (Services.enrichLocations locs)).parsed_locations.get ⟨i, hp⟩ =
        ⟨(locs.get ⟨i, hi⟩).name, (locs.get ⟨i, hi⟩).lat, (locs.get ⟨i, hi⟩).lon,
          i + 1⟩ := by
  have hne : ¬ locs.length < 2 := Nat.not_lt.mpr h2
  have hlen : (Services.enrichLocations locs).length = locs.length := by
    simp [Services.enrichLocations]
  have hA : Services.optimizeFromMap srv (some locs)
      = Services.optimizeRoute srv (Services.enrichLocations locs) := by
    simp [Services.optimizeFromMap, hne]
  refine ⟨hA, ?_, ?_, ?_⟩
  · rw [hA]
    cases h : srv.optimize (Services.optimizePayload (Services.enrichLocations locs)) <;>
      simp [Services.optimizeRoute, h]
  · rw [Services.optimizePayload_length, hlen]
  · intro i hi hp
    have hi2 : i < (Services.enrichLocations locs).length := hlen ▸ hi
    rw [Services.optimizePayload_get (Services.enrichLocations locs) i hi2 hp]
    have hget : (Services.enrichLocations locs).get ⟨i, hi2⟩
        = ⟨(locs.get ⟨i, hi⟩).name, (locs.get ⟨i, hi⟩).lat,
           (locs.get ⟨i, hi⟩).lon, some (i + 1)⟩ := by
      simp [Services.enrichLocations, List.get_mapIdx]
    rw [hget]
    rfl

/-- C3 witness: for the two-location input `A` (no sequence) and `B`
(pre-existing sequence 7), the optimizer receives `visit_sequence` values
1 and 2 in input order. -/
theorem c3_witness :
    (Services.optimizeFromMap (Samples.okServer ⟨none⟩)
        (some [Samples.locA, Samples.locB])).2
      = [Services.ApiCall.postOptimize
          (Services.optimizePayload
            (Services.enrichLocations [Samples.locA, Samples.locB]))] ∧
    (Services.optimizePayload
        (Services.enrichLocations [Samples.locA, Samples.locB])).parsed_locations.get
        ⟨0, by decide⟩ = ⟨"A", 1, 1, 1⟩ ∧
    (Services.optimizePayload
        (Services.enrichLocations [Samples.locA, Samples.locB])).parsed_locations.get
        ⟨1, by decide⟩ = ⟨"B", 2, 2, 2⟩ := by
  have h := c3_optimizeFromMap_overwrites_sequence
    (Samples.okServer ⟨none⟩) [Samples.locA, Samples.locB] (by decide)
  exact ⟨h.2.1, (h.2.2.2 0 (by decide) (by decide)).trans (by decide),
    (h.2.2.2 1 (by decide) (by decide)).trans (by decide)⟩

/-- C4 counterexample: two failing calls refute the claim as stated.  A
frontend extraction failure whose response body carries the detail string
"" (a present detail field) surfaces the generic fallback, because the
fallback is taken through the falsy `||` operator; and a root extraction
failure with body detail "optimizer unavailable" re-raises the transport
failure unchanged, so the surfaced message is the transport client's
"Request failed with status code 500", not the detail. -/
theorem c4_counterexample :
    Frontend.failureDetail
        (.response ⟨500, some ""⟩ "Request failed with status code 500")
      = some "" ∧
    (Frontend.extractSequence
        (Samples.failServer
          (.response ⟨500, some ""⟩ "Request failed with status code 500"))
        "plan a route").1
      = .error (.err "Failed to extract locations from your request. Please try again.") ∧
    "Failed to extract locations from your request. Please try again." ≠ "" ∧
    (Services.extractSequence (Samples.failServerR Samples.fail500)
        "plan a route").1
      = .error (.axios Samples.fail500) ∧
    (JsError.axios Samples.fail500).message
      = "Request failed with status code 500" ∧
    "Request failed with status code 500" ≠ "optimizer unavailable" :=
  ⟨rfl, rfl, by decide, rfl, rfl, by decide⟩

/-- C4 amended: for every failing remote call of the frontend adapters,
when the received response body carries a non-empty detail string the
raised error has exactly that string as its message; otherwise — detail
absent, detail empty, or no response at all — the message is the adapter's
generic fallback string.  The root adapters install no such handler: they
re-raise the transport failure unchanged, so the caller sees the transport
client's own message, never the body's detail and never a fallback. -/
theorem c4_detail_surfacing {ρ : Type} (srv : Frontend.Server ρ)
    (srvR : Services.Server ρ) (rt : String) (locs : List ParsedLocation)
    (e : AxiosFailure) (d : String) :
    (srv.extract rt = .fail e → Frontend.failureDetail e = some d → d ≠ "" →
      (Frontend.extractSequence srv rt).1 = .error (.err d)) ∧
    (srv.extract rt = .fail e →
      (Frontend.failureDetail e = none ∨ Frontend.failureDetail e = some "") →
      (Frontend.extractSequence srv rt).1
        = .error (.err "Failed to extract locations from your request. Please try again.")) ∧
    (srv.optimize locs = .fail e → Frontend.failureDetail e = some d → d ≠ "" →
      (Frontend.optimizeRoute srv locs).1 = .error (.err d)) ∧
    (srv.optimize locs = .fail e →
      (Frontend.failureDetail e = none ∨ Frontend.failureDetail e = some "") →
      (Frontend.optimizeRoute srv locs).1
        = .error (.err "Failed to optimize route. Please check your input and try again.")) ∧
    (srvR.extract rt = .fail e →
      (Services.extractSequence srvR rt).1 = .error (.axios e)) ∧
    (srvR.optimize (Services.optimizePayload locs) = .fail e →
      (Services.optimizeRoute srvR locs).1 = .error (.axios e)) := by
  refine ⟨?_, ?_, ?_, ?_, ?_, ?_⟩
  · intro h hd hne
    simp [Frontend.extractSequence, h, jsOrElse, hd, hne]
  · intro h hd
    rcases hd with hd | hd <;> simp [Frontend.extractSequence, h, jsOrElse, hd]
  · intro h hd hne
    simp [Frontend.optimizeRoute, h, jsOrElse, hd, hne]
  · intro h hd
    rcases hd with hd | hd <;> simp [Frontend.optimizeRoute, h, jsOrElse, hd]
  · intro h
    simp [Services.extractSequence, h]
  · intro h
    simp [Services.optimizeRoute, h]

/-- C4 witness: a status-500 response with body detail
"optimizer unavailable" surfaces exactly that message from the frontend
optimization adapter, and is re-raised unchanged by the root extraction
adapter. -/
theorem c4_witness :
    (Frontend.optimizeRoute (Samples.failServer Samples.fail500) []).1
      = .error (.err "optimizer unavailable") ∧
    (Services.extractSequence (Samples.failServerR Samples.fail500) "x").1
      = .error (.axios Samples.fail500) := by
  have h := c4_detail_surfacing (Samples.failServer Samples.fail500)
    (Samples.failServerR Samples.fail500) "x" [] Samples.fail500
    "optimizer unavailable"
  exact ⟨h.2.2.1 rfl rfl (by decide), h.2.2.2.2.1 rfl⟩

/-- C5: whenever the orchestrator call of `handleSubmit` (reached only on a
non-blank query) or of `handleMapOptimization` settles with an error, the
resulting state has `loading = false`, `stage = input` and a populated
error field; and `loading` is cleared on the success path as well. -/
theorem c5_failure_clears_loading {ρ : Type} (s : App.AppState ρ) (msg : String)
    (data : App.SubmitData ρ) (locs : List ParsedLocation) (opt : ρ)
    (hq : jsTrim s.query ≠ "") :
    (App.handleSubmit s (.error msg)).1.loading = false ∧
    (App.handleSubmit s (.error msg)).1.stage = App.Stage.input ∧
    (App.handleSubmit s (.error msg)).1.error ≠ none ∧
    (App.handleSubmit s (.ok data)).1.loading = false ∧
    (App.handleMapOptimization s locs (.error msg)).loading = false ∧
    (App.handleMapOptimization s locs (.error msg)).stage = App.Stage.input ∧
    (App.handleMapOptimization s locs (.error msg)).error ≠ none ∧
    (App.handleMapOptimization s locs (.ok opt)).loading = false := by
  simp [App.handleSubmit, App.handleMapOptimization, hq]

/-- C5 witness: a concrete mid-operation state with query "go", failing
with the message "boom" and succeeding with a unit result. -/
theorem c5_witness :
    (App.handleSubmit Samples.stateGo (.error "boom")).1.loading = false ∧
    (App.handleSubmit Samples.stateGo (.error "boom")).1.stage = App.Stage.input ∧
    (App.handleSubmit Samples.stateGo (.error "boom")).1.error ≠ none ∧
    (App.handleSubmit Samples.stateGo (.ok ⟨none, ()⟩)).1.loading = false ∧
    (App.handleMapOptimization Samples.stateGo [Samples.locA] (.error "boom")).loading
      = false ∧
    (App.handleMapOptimization Samples.stateGo [Samples.locA] (.error "boom")).stage
      = App.Stage.input ∧
    (App.handleMapOptimization Samples.stateGo [Samples.locA] (.error "boom")).error
      ≠ none ∧
    (App.handleMapOptimization Samples.stateGo [Samples.locA] (.ok ())).loading
      = false :=
  c5_failure_clears_loading Samples.stateGo "boom" ⟨none, ()⟩ [Samples.locA] ()
    (by decide)

/-- C6: for every list with fewer than two entries, `optimizeFromMap`
throws the `Error` with message "Select at least two locations." and its
wire-call list is empty: no network call is performed. -/
theorem c6_optimizeFromMap_validation_gate {ρ : Type}
    (srv : Services.Server ρ) (locs : List ParsedLocation)
    (h : locs.length < 2) :
    Services.optimizeFromMap srv (some locs)
      = (.error (.err "Select at least two locations."), []) := by
  simp [Services.optimizeFromMap, h]

/-- C6 witness: a singleton selection is rejected without any call. -/
theorem c6_witness :
    Services.optimizeFromMap (Samples.okServer ⟨none⟩) (some [Samples.locA])
      = (.error (.err "Select at least two locations."), []) :=
  c6_optimizeFromMap_validation_gate (Samples.okServer ⟨none⟩) [Samples.locA]
    (by decide)

/-- C7: both `healthCheck` implementations resolve (never throw) on every
outcome of the underlying call; on any failure the root one resolves to
`{ status := "offline" }` and the frontend one to the same status with the
failure message as diagnostic detail; successful response data passes
through. -/
theorem c7_healthCheck_never_raises (e : AxiosFailure)
    (hd : Services.Health) (fd : Frontend.Health) :
    (∀ o : ApiOutcome Services.Health, ∃ h, (Services.healthCheck o).1 = Except.ok h) ∧
    (∀ o : ApiOutcome Frontend.Health, ∃ h, (Frontend.healthCheck o).1 = Except.ok h) ∧
    Services.healthCheck (.fail e)
      = (.ok ⟨"offline"⟩, [Services.ApiCall.getHealth]) ∧
    Frontend.healthCheck (.fail e)
      = (.ok ⟨"offline", some e.message⟩, [Frontend.ApiCall.getHealth]) ∧
    (Services.healthCheck (.ok hd)).1 = .ok hd ∧
    (Frontend.healthCheck (.ok fd)).1 = .ok fd := by
  refine ⟨fun o => ?_, fun o => ?_, rfl, rfl, rfl, rfl⟩ <;>
    cases o <;> exact ⟨_, rfl⟩

/-- C8: from every controller state, `handleReset` returns to the `input`
stage with the query emptied and the error and both result cells
cleared. -/
theorem c8_reset_state {ρ : Type} (s : App.AppState ρ) :
    (App.handleReset s).stage = App.Stage.input ∧
    (App.handleReset s).query = "" ∧
    (App.handleReset s).error = none ∧
    (App.handleReset s).extractedLocations = none ∧
    (App.handleReset s).optimizationResult = none :=
  ⟨rfl, rfl, rfl, rfl, rfl⟩

/-- C9: on a blank (empty or whitespace-only) query, `handleSubmit` only
sets the error field: the orchestrator is not invoked, the stage and the
loading flag are unchanged — in particular an `input` stage remains
`input`. -/
theorem c9_blank_query_guard {ρ : Type} (s : App.AppState ρ)
    (outcome : Except String (App.SubmitData ρ))
    (hq : jsTrim s.query = "") :
    App.handleSubmit s outcome
      = ({ s with error := some "Please enter a logistics request" }, false) ∧
    (App.handleSubmit s outcome).1.stage = s.stage ∧
    (App.handleSubmit s outcome).1.loading = s.loading ∧
    (s.stage = App.Stage.input →
      (App.handleSubmit s outcome).1.stage = App.Stage.input) := by
  have h : App.handleSubmit s outcome
      = ({ s with error := some "Please enter a logistics request" }, false) := by
    simp [App.handleSubmit, hq]
  exact ⟨h, by rw [h], by rw [h], fun hs => by rw [h]; exact hs⟩

/-- C9 witness: a whitespace-only query in the `input` stage, with an
arbitrary would-be outcome. -/
theorem c9_witness :
    App.handleSubmit Samples.stateBlank (.error "never sent")
      = ({ Samples.stateBlank with
            error := some "Please enter a logistics request" }, false) ∧
    (App.handleSubmit Samples.stateBlank (.error "never sent")).1.stage
      = Samples.stateBlank.stage ∧
    (App.handleSubmit Samples.stateBlank (.error "never sent")).1.loading
      = Samples.stateBlank.loading ∧
    (Samples.stateBlank.stage = App.Stage.input →
      (App.handleSubmit Samples.stateBlank (.error "never sent")).1.stage
        = App.Stage.input) :=
  c9_blank_query_guard Samples.stateBlank (.error "never sent") (by decide)

/-- C10: a `null`/`undefined` selection list is handled exactly like the
empty one: `optimizeFromMap` throws the `Error` with message "Select at
least two locations." and performs no network call. -/
theorem c10_optimizeFromMap_null_guard {ρ : Type} (srv : Services.Server ρ) :
    Services.optimizeFromMap srv none = Services.optimizeFromMap srv (some []) ∧
    Services.optimizeFromMap srv none
      = (.error (.err "Select at least two locations."), []) :=
  ⟨rfl, rfl⟩
